import Mathlib

/-!
Verification of the statistical comparison engine of the
GeeData-GroundData-validator repository.

Conventions of the shallow embedding:
* a floating-point value that may be NaN is modelled as an element of
  `Option ℚ`: `none` is NaN ("missing"), `some q` is the finite value `q`
  (every concrete float of the programs of interest is a rational);
* a pandas column (one station's series) is a `List (Option ℚ)`;
* a DataFrame indexed by date with one column per station is modelled by
  `DF` below: an explicit date index, an explicit station list, and a
  total value function (the aligned callers guarantee every
  (date, station) cell exists, with NaN for missing data);
* fallible code (Python raise) is modelled with `Except`;
* `np.mean`, `np.sum` and friends are exact rational operations.

Source files embedded: src/utils/statistical_utils.py,
src/utils/seasonal_utils.py, src/src/analysis/statistical_analyzer.py
(whose preprocess_data coincides with src/src/statistical_analyzer.py).
-/

namespace GGV

/- Rational arithmetic of Batteries is sealed for the elaborator; making
it semireducible again lets `decide` evaluate the embedded computations on
the concrete inputs of the witnesses and counterexamples below. -/
attribute [local semireducible] Rat.add Rat.mul Rat.inv Rat.sub

/-- Calendar date (year, month, day). -/
structure Date where
  y : Nat
  m : Nat
  d : Nat
deriving DecidableEq, Repr

/-! ## Metric Engine: calculate_station_stats (statistical_utils.py lines 7-51) -/

/-- Embeds `mask = ~(np.isnan(observed) | np.isnan(predicted))`:
the boolean row mask that is true where both series are non-NaN. -/
def nanMask (observed predicted : List (Option ℚ)) : List Bool :=
  List.zipWith (fun o p => o.isSome && p.isSome) observed predicted

/-- Embeds numpy boolean-mask indexing `xs[mask]`, keeping the (finite)
values at the indices where the mask is true. -/
def applyMask (mask : List Bool) (xs : List (Option ℚ)) : List ℚ :=
  (mask.zip xs).filterMap fun bp => if bp.1 then bp.2 else none

/-- Embeds `obs_clean = observed[mask]` of calculate_station_stats. -/
def obs_clean (observed predicted : List (Option ℚ)) : List ℚ :=
  applyMask (nanMask observed predicted) observed

/-- Embeds `pred_clean = predicted[mask]` of calculate_station_stats. -/
def pred_clean (observed predicted : List (Option ℚ)) : List ℚ :=
  applyMask (nanMask observed predicted) predicted

/-- Number of sample indices at which both series are non-NaN. -/
def validPairCount (observed predicted : List (Option ℚ)) : Nat :=
  ((observed.zip predicted).filter fun p => p.1.isSome && p.2.isSome).length

/-- np.mean of a list of rationals (callers only use it on nonempty lists). -/
def listMean (xs : List ℚ) : ℚ := xs.sum / xs.length

/-- Population variance, the square of `np.std`; the source's tests
`np.std(xs) > 0` are embedded as `0 < listVar xs`. -/
def listVar (xs : List ℚ) : ℚ := listMean (xs.map fun x => (x - listMean xs) ^ 2)

/-- One station's statistics record (the dict built by
calculate_station_stats).  Fields whose float value is rational are carried
exactly.  `mse` carries the mean squared error: the source's `rmse` is its
square root, which leaves ℚ; no claim refers to the numeric value of rmse,
only to its column.  Likewise `rel_rmse_sq` carries the square of the
source's `rel_rmse`, and `corr_defined` records whether the source computes
a Pearson correlation (both standard deviations positive) or stores NaN;
the correlation's numeric value (which needs a square root) is not used by
any claim.  `r2` is sklearn's r2_score, `1 - ss_res / ss_tot`; the
degenerate constant-observation case (ss_tot = 0, where sklearn emits a
sentinel with a warning) is carried as `none`. -/
structure StationStats where
  count : Nat
  obs_mean : ℚ
  pred_mean : ℚ
  bias : ℚ
  mae : ℚ
  mse : ℚ
  r2 : Option ℚ
  rel_bias : Option ℚ
  rel_rmse_sq : Option ℚ
  nse : Option ℚ
  corr_defined : Bool
  pbias : Option ℚ
deriving DecidableEq, Repr

/-- Embeds calculate_station_stats (statistical_utils.py lines 7-51):
drop every index where either series is NaN; if fewer than 10 valid pairs
remain return the empty dict (`none`), otherwise the full record. -/
def calculate_station_stats (observed predicted : List (Option ℚ)) :
    Option StationStats :=
  let obs := obs_clean observed predicted
  let pred := pred_clean observed predicted
  if obs.length < 10 then none
  else
    let obsMean := listMean obs
    let predMean := listMean pred
    let theBias := listMean (List.zipWith (fun p o => p - o) pred obs)
    let ssres := (List.zipWith (fun o p => (o - p) ^ 2) obs pred).sum
    let sstot := (obs.map (fun o => (o - obsMean) ^ 2)).sum
    let obsSum := obs.sum
    some
      { count := obs.length
        obs_mean := obsMean
        pred_mean := predMean
        bias := theBias
        mae := listMean (List.zipWith (fun p o => |p - o|) pred obs)
        mse := listMean (List.zipWith (fun p o => (p - o) ^ 2) pred obs)
        r2 := if sstot = 0 then none else some (1 - ssres / sstot)
        rel_bias := if obsMean ≠ 0 then some (theBias / obsMean) else none
        rel_rmse_sq :=
          if obsMean ≠ 0 then
            some (listMean (List.zipWith (fun p o => (p - o) ^ 2) pred obs) / obsMean ^ 2)
          else none
        nse := if sstot ≠ 0 then some (1 - ssres / sstot) else none
        corr_defined := decide (0 < listVar obs) && decide (0 < listVar pred)
        pbias :=
          if obsSum ≠ 0 then
            some (100 * (List.zipWith (fun p o => p - o) pred obs).sum / obsSum)
          else none }

/-- Result of calculate_stats_for_all_stations: either the populated table
(indexed by station) or, when no station yielded statistics, an empty
DataFrame that still carries an explicit column list. -/
inductive StatsTableResult where
  | emptyWithColumns (columns : List String)
  | table (rows : List (String × StationStats))
deriving DecidableEq, Repr

/-- Column list of the empty-result DataFrame built at
statistical_utils.py line 68. -/
def statsColumns : List String :=
  ["station", "count", "obs_mean", "pred_mean", "bias", "mae", "rmse", "r2",
   "rel_bias", "rel_rmse", "nse", "corr", "pbias"]

/-- The per-station loop of calculate_stats_for_all_stations: a row is
appended only when calculate_station_stats returned a nonempty dict. -/
def stationRows (cols : List String) (obs pred : String → List (Option ℚ)) :
    List (String × StationStats) :=
  cols.filterMap fun s =>
    (calculate_station_stats (obs s) (pred s)).map fun st => (s, st)

/-- Embeds calculate_stats_for_all_stations (statistical_utils.py lines
53-70).  A DataFrame pair with equal columns is passed as the shared column
list plus a column-series function per side. -/
def calculate_stats_for_all_stations (cols : List String)
    (obs pred : String → List (Option ℚ)) : StatsTableResult :=
  let rows := stationRows cols obs pred
  if rows = [] then .emptyWithColumns statsColumns else .table rows

/-- Stations listed in a StatsTableResult (the table's index). -/
def resultStations : StatsTableResult → List String
  | .emptyWithColumns _ => []
  | .table rows => rows.map Prod.fst

/-! ## Linear-interpolation percentiles

numpy's np.percentile / np.nanpercentile and pandas' Series.quantile all
default to the same linear-interpolation rule: on the ascending sort
s(0..n-1) of the valid values, the quantile at fraction f is
s(i) + (h - i) * (s(i+1) - s(i)) with h = (n-1)*f and i = floor(h).
The sort is done with Mathlib's insertionSort (any ascending sort agrees).
An empty valid sample yields NaN (`none`). -/

/-- Quantile at fraction `f` (0 ≤ f ≤ 1) of a list of valid values. -/
def quantileLin (xs : List ℚ) (f : ℚ) : Option ℚ :=
  match xs.insertionSort (· ≤ ·) with
  | [] => none
  | q :: rest =>
    let srt := q :: rest
    let h : ℚ := ((srt.length : ℚ) - 1) * f
    let i : Nat := ⌊h⌋.toNat
    let lo := srt.getD i 0
    let hi := srt.getD (i + 1) lo
    some (lo + (h - (i : ℚ)) * (hi - lo))

/-- np.nanpercentile at percentile `p` (0 ≤ p ≤ 100): the linear quantile
of the non-NaN values. -/
def nanpercentile (xs : List (Option ℚ)) (p : ℚ) : Option ℚ :=
  quantileLin (xs.filterMap id) (p / 100)

/-! ## Extreme-Value Extractor: calculate_percentile_stats_by_station
(statistical_utils.py lines 72-97) -/

/-- Embeds the per-station boolean mask
`df_obs[station] >= threshold` (higher = true) or
`df_obs[station] <= threshold` (higher = false): a float comparison with
NaN on either side is false, so NaN observations and a NaN threshold
(all-NaN observed column) select nothing. -/
def extremeMask (xs : List (Option ℚ)) (threshold : Option ℚ)
    (higher : Bool) : List Bool :=
  xs.map fun v? =>
    match threshold, v? with
    | some t, some v => if higher then decide (t ≤ v) else decide (v ≤ t)
    | _, _ => false

/-- Row selection `series[mask]` keeping the Option-valued cells. -/
def selectMask (mask : List Bool) (xs : List (Option ℚ)) : List (Option ℚ) :=
  (mask.zip xs).filterMap fun bp => if bp.1 then some bp.2 else none

/-- The body of the per-station loop of calculate_percentile_stats_by_station:
threshold from the station's observed quantile (pandas skips NaN), the same
mask applied to both columns, then calculate_station_stats. -/
def percentileStationStats (obs pred : String → List (Option ℚ))
    (percentile : ℚ) (higher : Bool) (s : String) : Option StationStats :=
  let threshold := quantileLin ((obs s).filterMap id) (percentile / 100)
  let mask := extremeMask (obs s) threshold higher
  calculate_station_stats (selectMask mask (obs s)) (selectMask mask (pred s))

/-- Embeds calculate_percentile_stats_by_station (statistical_utils.py
lines 72-97).  Unlike calculate_stats_for_all_stations it ends with an
unconditional `pd.DataFrame(stats_list).set_index("station")`: when no
station yielded statistics the empty frame has no columns and set_index
raises KeyError, embedded as the `Except.error` branch. -/
def calculate_percentile_stats_by_station (cols : List String)
    (obs pred : String → List (Option ℚ)) (percentile : ℚ) (higher : Bool) :
    Except String (List (String × StationStats)) :=
  let rows := cols.filterMap fun s =>
    (percentileStationStats obs pred percentile higher s).map fun st => (s, st)
  if rows = [] then .error "KeyError: station" else .ok rows

/-! ## Temporal Aggregator: aggregate_to_monthly / aggregate_to_yearly
(statistical_utils.py lines 99-130)

Both functions act column-by-column (the broadcast mask
`monthly_count < min_required.values.reshape(-1, 1)` applies the same
per-month requirement to every station column), so they are embedded on a
single dated series `List (Date × Option ℚ)` plus a thin matrix wrapper.
pandas resample groups rows by calendar month / year; the theorems below
are stated for indexes that form a full calendar grid, where resample's
in-between empty bins cannot arise. -/

/-- Dated series: one station column together with the DataFrame's date
index. -/
abbrev DSeries := List (Date × Option ℚ)

/-- Gregorian leap year. -/
def isLeap (y : Nat) : Bool := y % 4 = 0 && (y % 100 ≠ 0 || y % 400 = 0)

/-- Number of days of calendar month m of year y. -/
def daysInMonth (y m : Nat) : Nat :=
  if m = 2 then (if isLeap y then 29 else 28)
  else if m = 4 ∨ m = 6 ∨ m = 9 ∨ m = 11 then 30
  else 31

/-- First-occurrence deduplication (the distinct group keys of a resample,
in order of appearance; on the sorted indexes of the theorems below this is
chronological order). -/
def firstDedupAux [DecidableEq α] : List α → List α → List α
  | [], _ => []
  | k :: ks, seen =>
    if k ∈ seen then firstDedupAux ks seen
    else k :: firstDedupAux ks (k :: seen)

/-- First-occurrence deduplication of a key list. -/
def firstDedup [DecidableEq α] (l : List α) : List α := firstDedupAux l []

/-- The values of the rows of `df` whose date has group key `k`. -/
def groupVals [DecidableEq κ] (df : DSeries) (key : Date → κ) (k : κ) :
    List (Option ℚ) :=
  (df.filter fun r => decide (key r.1 = k)).map Prod.snd

/-- Month group key of a row, as used by resample to months. -/
def monthKey (d : Date) : Nat × Nat := (d.y, d.m)

/-- Year group key of a row, as used by resample to years. -/
def yearKey (d : Date) : Nat := d.y

/-- Number of non-NaN values of a group (pandas .count()). -/
def countValid (g : List (Option ℚ)) : Nat := (g.filterMap id).length

/-- Sum of the non-NaN values of a group (pandas .sum() skips NaN and sums
an all-NaN group to 0). -/
def sumValid (g : List (Option ℚ)) : ℚ := (g.filterMap id).sum

/-- Embeds `min_required = (days_in_month * 0.8).astype(int)`.  For every
group size n that a calendar month can have (n ≤ 31) the double-precision
product n * 0.8 rounds to a value whose integer truncation equals
floor(4n/5), so the float computation is embedded exactly as Nat
division. -/
def min_required (n : Nat) : Nat := 4 * n / 5

/-- Embeds aggregate_to_monthly (statistical_utils.py lines 99-115):
per calendar month, the group's size (number of index rows), its count of
non-NaN values and its NaN-skipping sum; the sum is masked to NaN when
count < min_required(size). -/
def aggregate_to_monthly (df : DSeries) : List ((Nat × Nat) × Option ℚ) :=
  (firstDedup (df.map fun r => monthKey r.1)).map fun k =>
    let g := groupVals df monthKey k
    (k, if countValid g < min_required g.length then none
        else some (sumValid g))

/-- Number of calendar months of year y (within the index) holding at
least one non-NaN value: embeds
`monthly_valid = df.resample("ME").count() > 0` followed by
`months_per_year = monthly_valid.resample("YE").sum()` at year y. -/
def monthsWithData (df : DSeries) (y : Nat) : Nat :=
  ((firstDedup ((df.filter fun r => decide (r.1.y = y)).map fun r =>
      monthKey r.1)).filter fun k =>
        decide (0 < countValid (groupVals df monthKey k))).length

/-- Embeds aggregate_to_yearly (statistical_utils.py lines 117-130):
the yearly value is the NaN-skipping sum of the year's DAILY values
(`yearly_sum = df.resample("YE").sum()` on the daily frame), masked to NaN
when fewer than 9 calendar months of that year hold any non-NaN value. -/
def aggregate_to_yearly (df : DSeries) : List (Nat × Option ℚ) :=
  (firstDedup (df.map fun r => yearKey r.1)).map fun y =>
    let g := groupVals df yearKey y
    (y, if monthsWithData df y < 9 then none else some (sumValid g))

/-- Modelled from the spec (Section 4.3, Yearly): the two-stage
daily→monthly→yearly aggregation the spec describes — sum values from the
already-computed monthly series, masking a year unless at least 9 of its
months are non-missing in that monthly series.  This definition follows
the spec's words and exists only to be compared with the source's
`aggregate_to_yearly`, which it does NOT match. -/
def aggregate_to_yearly_twostage (df : DSeries) : List (Nat × Option ℚ) :=
  let monthly := aggregate_to_monthly df
  (firstDedup (monthly.map fun r => r.1.1)).map fun y =>
    let g := (monthly.filter fun r => decide (r.1.1 = y)).map Prod.snd
    (y, if (g.filterMap id).length < 9 then none else some (sumValid g))

/-- The date rows of calendar month m of year y, in calendar order. -/
def monthDates (y m : Nat) : List Date :=
  (List.range (daysInMonth y m)).map fun i => ⟨y, m, i + 1⟩

/-- One full calendar month of rows carrying the given values. -/
def monthBlock (y m : Nat) (vs : List (Option ℚ)) : DSeries :=
  (monthDates y m).zip vs

/-- Matrix version: both aggregations apply the same per-month (resp.
per-year) rule independently to every station column of the DataFrame. -/
def aggregate_to_monthly_df (dates : List Date)
    (cols : List (String × List (Option ℚ))) :
    List (String × List ((Nat × Nat) × Option ℚ)) :=
  cols.map fun c => (c.1, aggregate_to_monthly (dates.zip c.2))

/-- Matrix version of aggregate_to_yearly. -/
def aggregate_to_yearly_df (dates : List Date)
    (cols : List (String × List (Option ℚ))) :
    List (String × List (Nat × Option ℚ)) :=
  cols.map fun c => (c.1, aggregate_to_yearly (dates.zip c.2))

/-! ## Outlier Filter: filter_extreme_stats
(statistical_utils.py lines 151-208)

The statistics DataFrame is embedded as its list of numeric columns
(name, per-station cells); the station index is positional and is not
touched by the filter.  All columns of the statistics tables are numeric,
so `select_dtypes(include=["number"])` selects them all. -/

/-- Statistics table as a list of named numeric columns. -/
abbrev StatsCols := List (String × List (Option ℚ))

/-- ASCII lowercase of one character (the column names fed to the filter
are ASCII). -/
def lowerChar (c : Char) : Char :=
  if 65 ≤ c.toNat ∧ c.toNat ≤ 90 then Char.ofNat (c.toNat + 32) else c

/-- Embeds the Python method call col.lower() on the (ASCII) column
names. -/
def pyLower (s : String) : String := String.mk (s.data.map lowerChar)

/-- Metrics where higher values are better (source list, compared against
the lowercased column name). -/
def higher_is_better : List String := ["r2", "nse", "corr"]

/-- Metrics where lower values are better. -/
def lower_is_better : List String :=
  ["rmse", "mae", "bias", "pbias", "rel_bias", "rel_rmse"]

/-- Mask `value < bound` with float semantics: false when the bound is NaN
(empty column). NaN cells are never selected by the mask and therefore
stay NaN. -/
def ltBound (bound : Option ℚ) (v : ℚ) : Bool :=
  match bound with
  | some b => decide (v < b)
  | none => false

/-- Mask `value > bound` with float semantics. -/
def gtBound (bound : Option ℚ) (v : ℚ) : Bool :=
  match bound with
  | some b => decide (b < v)
  | none => false

/-- One column pass of filter_extreme_stats: bounds are computed with
np.nanpercentile on the column as it stands, then the masked cells are
assigned NaN.  Higher-is-better metrics lose only values strictly below
the lower bound, lower-is-better metrics only values strictly above the
upper bound, all other columns lose values strictly outside both bounds. -/
def filterColVals (lp up : ℚ) (c : String) (vs : List (Option ℚ)) :
    List (Option ℚ) :=
  if pyLower c ∈ higher_is_better then
    let lb := nanpercentile vs lp
    vs.map fun v? => v?.bind fun v => if ltBound lb v then none else some v
  else if pyLower c ∈ lower_is_better then
    let ub := nanpercentile vs up
    vs.map fun v? => v?.bind fun v => if gtBound ub v then none else some v
  else
    let lb := nanpercentile vs lp
    let ub := nanpercentile vs up
    vs.map fun v? => v?.bind fun v =>
      if ltBound lb v || gtBound ub v then none else some v

/-- Replace the cells of every column named `c` (statistics tables have
unique column names; pandas label assignment would hit all duplicates). -/
def setCol (t : StatsCols) (c : String) (vs : List (Option ℚ)) : StatsCols :=
  t.map fun p => if p.1 = c then (p.1, vs) else p

/-- One iteration of the source's `for col in columns_to_filter` loop,
guarded by `if col in filtered_df.columns`. -/
def filterStep (lp up : ℚ) (t : StatsCols) (c : String) : StatsCols :=
  match t.lookup c with
  | none => t
  | some vs => setCol t c (filterColVals lp up c vs)

/-- Embeds filter_extreme_stats (statistical_utils.py lines 151-208).
An empty table is returned unchanged; a `none` columns_to_filter selects
every (numeric) column; an explicit list is first restricted to existing
columns.  The observability print of suppressed counts has no effect on
the returned table and is not modelled. -/
def filter_extreme_stats (t : StatsCols) (lp up : ℚ)
    (columns_to_filter : Option (List String)) : StatsCols :=
  if t = [] then t
  else
    let cols := match columns_to_filter with
      | none => t.map Prod.fst
      | some l => l.filter fun c => decide (c ∈ t.map Prod.fst)
    cols.foldl (filterStep lp up) t

/-- Cell of a statistics table at column `c`, station position `i`
(NaN when the column or the row does not exist). -/
def cellAt (t : StatsCols) (c : String) (i : Nat) : Option ℚ :=
  match t.lookup c with
  | some vs => vs.getD i none
  | none => none

/-! ## Alignment & Preprocessing: GriddedDataAnalyzer.preprocess_data
(src/src/analysis/statistical_analyzer.py lines 100-119; the copy at
src/src/statistical_analyzer.py lines 54-71 is identical). -/

/-- A station-by-date DataFrame: explicit date index, explicit station
columns, and the cell values as a total function (NaN for missing).  The
Python set intersection of station ids is unordered; it is embedded as an
order-preserving filter, and the theorems only use it as a set. -/
structure DF where
  dates : List Date
  stations : List String
  val : Date → String → Option ℚ

/-- The two distinct alignment failures of preprocess_data, raised in this
order: ValueError("No common stations found") when the station
intersection is empty, then ValueError("No overlapping data found") when
the inner join of the date indexes is empty. -/
inductive AlignError where
  | noCommonStations
  | noOverlap
deriving DecidableEq, Repr

/-- Embeds `common_stations = list(set(ground.columns) & set(gridded.columns))`. -/
def commonStations (ground gridded : DF) : List String :=
  ground.stations.filter fun s => decide (s ∈ gridded.stations)

/-- Embeds the inner join of the two date indexes performed by
`ground.align(gridded, join="inner")` after column restriction. -/
def commonDates (ground gridded : DF) : List Date :=
  ground.dates.filter fun d => decide (d ∈ gridded.dates)

/-- Embeds GriddedDataAnalyzer.preprocess_data: station intersection
first (failing when empty), then the date inner join (failing when the
joined frames are empty, i.e. have no rows). -/
def preprocess_data (ground gridded : DF) : Except AlignError (DF × DF) :=
  let common := commonStations ground gridded
  if common = [] then .error .noCommonStations
  else
    let dates := commonDates ground gridded
    if dates = [] then .error .noOverlap
    else .ok ({ dates := dates, stations := common, val := ground.val },
              { dates := dates, stations := common, val := gridded.val })

/-! ## Seasonal statistics: seasonal_utils.py -/

/-- Embeds get_season (seasonal_utils.py lines 7-16). -/
def get_season (month : Nat) : String :=
  if month = 12 ∨ month = 1 ∨ month = 2 then "Winter"
  else if month = 3 ∨ month = 4 ∨ month = 5 then "Spring"
  else if month = 6 ∨ month = 7 ∨ month = 8 then "Summer"
  else "Fall"

/-- The fixed season iteration order of split_by_season and
calculate_seasonal_stats. -/
def seasonNames : List String := ["Winter", "Spring", "Summer", "Fall"]

/-- Date rows of `df` falling in the given season. -/
def seasonDates (df : DF) (season : String) : List Date :=
  df.dates.filter fun d => decide (get_season d.m = season)

/-- Embeds split_by_season (seasonal_utils.py lines 18-31): the four
season-restricted sub-frames, keeping daily granularity; empty seasons
are omitted from the returned dict. -/
def split_by_season (df : DF) : List (String × DF) :=
  (seasonNames.map fun season =>
    (season, { df with dates := seasonDates df season })).filter
      fun p => decide (p.2.dates ≠ [])

/-- One station column of a DF, in date-index order. -/
def dfCol (df : DF) (s : String) : List (Option ℚ) :=
  df.dates.map fun d => df.val d s

/-- calculate_stats_for_all_stations applied to a pair of aligned frames
(columns taken from the observed frame, as the source loop does). -/
def statsOfDF (ground gridded : DF) : StatsTableResult :=
  calculate_stats_for_all_stations ground.stations (dfCol ground) (dfCol gridded)

/-- Embeds `ground_data.align(gridded_data, join="inner")` of
calculate_seasonal_stats: an inner join on both axes (dates and station
columns). -/
def alignInner (a b : DF) : DF × DF :=
  let dates := commonDates a b
  let cols := commonStations a b
  ({ dates := dates, stations := cols, val := a.val },
   { dates := dates, stations := cols, val := b.val })

/-- Embeds calculate_seasonal_stats (seasonal_utils.py lines 33-53):
align both frames, split each by season, and build one statistics table
per season present in both splits (the aligned frames share one date
index, so the same seasons are present on both sides).  The source also
stores the season name in a `season` column of each table; here it is the
key of the association list. -/
def calculate_seasonal_stats (ground_data gridded_data : DF) :
    List (String × StatsTableResult) :=
  let gp := alignInner ground_data gridded_data
  let ground_seasons := split_by_season gp.1
  let gridded_seasons := split_by_season gp.2
  seasonNames.filterMap fun season =>
    match ground_seasons.lookup season, gridded_seasons.lookup season with
    | some gdf, some pdf => some (season, statsOfDF gdf pdf)
    | _, _ => none

/-! ## Data-length validation (statistical_utils.py lines 132-149) -/

/-- Embeds validate_station_data: (daily, monthly, yearly) eligibility of
one station's series — at least 365 valid observations, at least 2 years
with any data, at least 5 years with any data. -/
def validate_station_data (dates : List Date) (vals : List (Option ℚ)) :
    Bool × Bool × Bool :=
  let df : DSeries := dates.zip vals
  let yearsWithData :=
    ((firstDedup (df.map fun r => yearKey r.1)).filter fun y =>
      decide (0 < countValid (groupVals df yearKey y))).length
  let totalValid := countValid vals
  (365 ≤ totalValid, 2 ≤ yearsWithData, 5 ≤ yearsWithData)

/-- All three eligibility flags of one station hold. -/
def allFlagsTrue (f : Bool × Bool × Bool) : Bool := f.1 && f.2.1 && f.2.2

/-! ## Analysis Orchestrator: GriddedDataAnalyzer.analyze_dataset
(src/src/analysis/statistical_analyzer.py lines 121-167 and the rest of
the method)

The method is embedded at the level of its observable per-dataset effects:
the list of files it writes (in write order), the temporal-resolution
annotation of temporal_info.json, the returned summary, and the exception
swallowed by its `except` handler (which logs and returns an empty dict).
The numeric payloads of the persisted tables are the statistics functions
already embedded above and are not duplicated inside this record; the
optional extreme-value filtering configured through AnalysisConfig
replaces cells inside those payloads and does not change which files are
written. -/

/-- Embeds config.AnalysisConfig as consumed by analyze_dataset. -/
structure AnalysisConfig where
  filter_extremes : Bool
  lower_percentile : ℚ
  upper_percentile : ℚ
  metrics_to_filter : Option (List String)

/-- Lexicographic order on dates (the order of a DatetimeIndex). -/
def dateLE (a b : Date) : Bool :=
  a.y < b.y || (a.y = b.y && (a.m < b.m || (a.m = b.m && a.d ≤ b.d)))

/-- Embeds index.min(). -/
def minDate (l : List Date) : Option Date :=
  l.foldl (fun acc d => match acc with
    | none => some d
    | some m => if dateLE d m then some d else some m) none

/-- Embeds index.max(). -/
def maxDate (l : List Date) : Option Date :=
  l.foldl (fun acc d => match acc with
    | none => some d
    | some m => if dateLE m d then some d else some m) none

/-- The summary dict of the non-monthly branch of analyze_dataset. -/
structure RunSummary where
  n_stations : Nat
  start_date : Option Date
  end_date : Option Date
  total_days : Nat
  stations_with_sufficient_data : Nat
deriving DecidableEq, Repr

/-- Observable per-dataset outcome of analyze_dataset: files written under
the dataset's results folder in write order, the temporal_info.json
content when written, the returned summary (none when the method returned
the empty dict), and the exception caught by the per-dataset handler. -/
structure DatasetOutputs where
  files : List String
  temporal_note : Option (String × String)
  summary : Option RunSummary
  caught : Option String
deriving DecidableEq, Repr

/-- Outcome of the per-dataset except handler: the error is logged and the
empty dict is returned; files already written stay written. -/
def caughtOutputs (written : List String) (msg : String) : DatasetOutputs :=
  { files := written, temporal_note := none, summary := none,
    caught := some msg }

/-- Embeds GriddedDataAnalyzer.analyze_dataset.  Control flow follows the
source: preprocess first; then, for dataset name "FLDAS"
(is_monthly_dataset), the line `ground = self.aggregate_to_monthly(ground)`
runs — GriddedDataAnalyzer defines no attribute aggregate_to_monthly (the
helper of utils.statistical_utils was imported at module level, not bound
on the instance), so Python raises AttributeError there, before any file
is written, and the except handler returns the empty dict.  (Had that call
succeeded, the branch would next hit the unimported name `json` when
writing temporal_info.json.)  The non-monthly branch re-preprocesses the
same inputs (same result), writes its tables in source order, and survives
two internal raise points: calculate_percentile_stats_by_station on a
table with no qualifying station, and pd.concat on an empty seasonal dict.
Its final line prints self.analysis_config unconditionally, so a missing
config raises AttributeError after all files are written and the empty
dict is returned. -/
def analyze_dataset (config : Option AnalysisConfig) (dataset_name : String)
    (ground_data gridded_data : DF) : DatasetOutputs :=
  let is_monthly_dataset := dataset_name = "FLDAS"
  match preprocess_data ground_data gridded_data with
  | .error .noCommonStations =>
      caughtOutputs [] "ValueError: No common stations found"
  | .error .noOverlap =>
      caughtOutputs [] "ValueError: No overlapping data found"
  | .ok (ground, gridded) =>
    if is_monthly_dataset then
      caughtOutputs []
        "AttributeError: GriddedDataAnalyzer object has no attribute aggregate_to_monthly"
    else
      let written₂ := ["data_validation.csv", "daily_stats.csv"]
      match calculate_percentile_stats_by_station ground.stations
          (dfCol ground) (dfCol gridded) 10 false with
      | .error e => caughtOutputs written₂ e
      | .ok _ =>
      match calculate_percentile_stats_by_station ground.stations
          (dfCol ground) (dfCol gridded) 90 true with
      | .error e => caughtOutputs written₂ e
      | .ok _ =>
        let written₆ := written₂ ++
          ["low_extreme_stats.csv", "high_extreme_stats.csv",
           "monthly_stats.csv", "yearly_stats.csv"]
        let seasonal := calculate_seasonal_stats ground gridded
        if seasonal = [] then
          caughtOutputs written₆ "ValueError: No objects to concatenate"
        else
          let files := written₆ ++ ["seasonal_stats.csv"] ++
            (seasonal.map fun p => p.1.toLower ++ "_stats.csv") ++
            ["seasonal_summary.csv", "analysis_summary.csv"]
          let summary : RunSummary :=
            { n_stations := ground.stations.length
              start_date := minDate ground.dates
              end_date := maxDate ground.dates
              total_days := ground.dates.length
              stations_with_sufficient_data :=
                (ground.stations.filter fun s =>
                  allFlagsTrue (validate_station_data ground.dates
                    (dfCol ground s))).length }
          match config with
          | none =>
              { files := files, temporal_note := none, summary := none,
                caught := some "AttributeError: analysis_config" }
          | some _ =>
              { files := files, temporal_note := none,
                summary := some summary, caught := none }

/-! ## Concrete data used by the witnesses and counterexamples -/

/-- One year of station data whose January rows are a partial grid: day 1
holds 10, days 2 and 3 are NaN (count 1 of size 3, below the 80%
requirement of 2, so the January monthly value is masked), and every other
month holds a single valid 0.  Such partial date indexes arise from the
inner join of alignment. -/
def exC2df : DSeries :=
  [(⟨2001, 1, 1⟩, some (10 : ℚ)), (⟨2001, 1, 2⟩, none), (⟨2001, 1, 3⟩, none)] ++
    ((List.range 11).map fun m => (⟨2001, m + 2, 1⟩, some (0 : ℚ)))

/-- January 2001 values: 24 valid days of value 1 out of 31 calendar days
(77.4% coverage, strictly below 80%). -/
def exC3vals : List (Option ℚ) :=
  (List.range 31).map fun i => if i < 24 then some 1 else none

/-- Ten observed zeros: enough valid pairs, with a zero observed sum. -/
def exC4obs : List (Option ℚ) := List.replicate 10 (some 0)

/-- Ten predicted values 0..9 paired with the zero observations. -/
def exC4pred : List (Option ℚ) := (List.range 10).map fun i => some i

/-- Ground frame with stations 1, 2, 3 and one date. -/
def exC5ground : DF :=
  { dates := [⟨2001, 1, 1⟩], stations := ["1", "2", "3"],
    val := fun _ _ => some 1 }

/-- Gridded frame with stations 2, 3, 4 and a disjoint date. -/
def exC5gridded : DF :=
  { dates := [⟨2002, 1, 1⟩], stations := ["2", "3", "4"],
    val := fun _ _ => some 2 }

/-- A one-column statistics table for the rmse metric over three
stations. -/
def exC8table : StatsCols := [("rmse", [some 0, some 1, some 100])]

/-- Ground frame: one station over the first 20 days of January 2001
(all winter dates, all valid). -/
def exC7g : DF :=
  { dates := (List.range 20).map fun i => ⟨2001, 1, i + 1⟩
    stations := ["A"]
    val := fun d _ => some d.d }

/-- Gridded frame over the same index and station. -/
def exC7p : DF :=
  { dates := (List.range 20).map fun i => ⟨2001, 1, i + 1⟩
    stations := ["A"]
    val := fun d _ => some (d.d + 1) }

/-- Season table cell access used to exhibit the seasonal sample count. -/
def seasonStationCount (l : List (String × StatsTableResult)) (σ s : String) :
    Option Nat :=
  match l.lookup σ with
  | some (.table rows) => (rows.lookup s).map StationStats.count
  | _ => none

/-- An analysis configuration with filtering disabled. -/
def exConfig : AnalysisConfig :=
  { filter_extremes := false, lower_percentile := 1, upper_percentile := 99,
    metrics_to_filter := none }

/-- The Winter statistics table of the concrete seasonal example, as
calculate_seasonal_stats builds it. -/
def exC7winterT : StatsTableResult :=
  statsOfDF
    { (alignInner exC7g exC7p).1 with
        dates := seasonDates (alignInner exC7g exC7p).1 "Winter" }
    { (alignInner exC7g exC7p).2 with
        dates := seasonDates (alignInner exC7g exC7p).2 "Winter" }

/-! ## Shared lemmas about the Metric Engine -/

theorem obs_clean_length (observed predicted : List (Option ℚ)) :
    (obs_clean observed predicted).length = validPairCount observed predicted := by
  induction observed generalizing predicted with
  | nil => simp [obs_clean, nanMask, applyMask, validPairCount]
  | cons o os ih =>
    cases predicted with
    | nil => simp [obs_clean, nanMask, applyMask, validPairCount]
    | cons p ps =>
      cases o <;> cases p <;>
        simpa [obs_clean, nanMask, applyMask, validPairCount] using ih ps

theorem calculate_station_stats_eq_none_iff (observed predicted : List (Option ℚ)) :
    calculate_station_stats observed predicted = none ↔
      validPairCount observed predicted < 10 := by
  rw [← obs_clean_length]
  by_cases h : (obs_clean observed predicted).length < 10 <;>
    simp [calculate_station_stats, h]

theorem calculate_station_stats_count (observed predicted : List (Option ℚ))
    (st : StationStats) (h : calculate_station_stats observed predicted = some st) :
    st.count = validPairCount observed predicted := by
  rw [← obs_clean_length]
  by_cases hlt : (obs_clean observed predicted).length < 10
  · exact absurd h (by simp [calculate_station_stats, hlt])
  · simp only [calculate_station_stats] at h
    rw [if_neg hlt] at h
    cases h
    rfl

theorem mem_stationRows_iff (cols : List String)
    (obs pred : String → List (Option ℚ)) (s : String) :
    s ∈ (stationRows cols obs pred).map Prod.fst ↔
      s ∈ cols ∧ calculate_station_stats (obs s) (pred s) ≠ none := by
  constructor
  · intro h
    obtain ⟨⟨s', st⟩, hmem, hfst⟩ := List.mem_map.mp h
    obtain ⟨a, ha, hfa⟩ := List.mem_filterMap.mp hmem
    obtain ⟨st₀, hst₀, heq⟩ := Option.map_eq_some'.mp hfa
    obtain ⟨rfl, rfl⟩ := Prod.mk.injEq .. |>.mp heq
    cases hfst
    exact ⟨ha, by simp [hst₀]⟩
  · rintro ⟨hs, hne⟩
    obtain ⟨st, hst⟩ := Option.ne_none_iff_exists'.mp hne
    exact List.mem_map.mpr ⟨(s, st),
      List.mem_filterMap.mpr ⟨s, hs, by simp [hst]⟩, rfl⟩

theorem resultStations_all (cols : List String)
    (obs pred : String → List (Option ℚ)) :
    resultStations (calculate_stats_for_all_stations cols obs pred) =
      (stationRows cols obs pred).map Prod.fst := by
  by_cases h : stationRows cols obs pred = [] <;>
    simp [calculate_stats_for_all_stations, resultStations, h]

/-- C1: for every pair of equal-length numeric sequences,
calculate_station_stats first drops every sample index at which either
sequence is NaN (the surviving sample count is exactly the number of
indices where both values are non-NaN), returns no record exactly when
fewer than 10 valid pairs remain, and calculate_stats_for_all_stations
then lists the station in the output table exactly when a record was
produced — an excluded station contributes no row at all. -/
theorem c1_nan_pairs_and_min_sample (cols : List String)
    (obs pred : String → List (Option ℚ)) (s : String) :
    (∀ st, calculate_station_stats (obs s) (pred s) = some st →
        st.count = validPairCount (obs s) (pred s))
    ∧ (calculate_station_stats (obs s) (pred s) = none ↔
        validPairCount (obs s) (pred s) < 10)
    ∧ (s ∈ resultStations (calculate_stats_for_all_stations cols obs pred) ↔
        s ∈ cols ∧ 10 ≤ validPairCount (obs s) (pred s)) := by
  refine ⟨fun st h => calculate_station_stats_count _ _ st h,
    calculate_station_stats_eq_none_iff _ _, ?_⟩
  rw [resultStations_all, mem_stationRows_iff]
  have hiff := calculate_station_stats_eq_none_iff (obs s) (pred s)
  constructor
  · rintro ⟨hs, hne⟩
    exact ⟨hs, Nat.le_of_not_lt fun hlt => hne (hiff.mpr hlt)⟩
  · rintro ⟨hs, hle⟩
    exact ⟨hs, fun hnone => Nat.not_lt.mpr hle (hiff.mp hnone)⟩

/-- Witness for C1 at a concrete input: a station with 12 valid pairs is
listed in the output table. -/
theorem c1_nan_pairs_and_min_sample_witness :
    "A" ∈ resultStations (calculate_stats_for_all_stations ["A"]
      (fun _ => (List.range 12).map fun i => some (i : ℚ))
      (fun _ => (List.range 12).map fun i => some (i : ℚ))) :=
  (c1_nan_pairs_and_min_sample ["A"]
      (fun _ => (List.range 12).map fun i => some (i : ℚ))
      (fun _ => (List.range 12).map fun i => some (i : ℚ)) "A").2.2.mpr
    ⟨by decide, by decide⟩

/-- C4 counterexample: with ten valid pairs whose observed values are all
zero, calculate_station_stats returns a full record whose pbias field is
NaN — the `else np.nan` fallback of statistical_utils.py line 49 — and no
exception is raised; the claim says the engine raises a distinct
degenerate condition that callers must handle instead of a NaN
fallback. -/
theorem c4_degenerate_pbias_counterexample :
    (calculate_station_stats exC4obs exC4pred).map StationStats.pbias =
      some none := by decide

/-- C4 (amended): when the NaN-cleaned observed values sum to zero the
record's pbias is NaN (no error is raised); when the sum is nonzero,
pbias = 100 · Σ(p−o) / Σ(o) over the cleaned pairs. -/
theorem c4_pbias_nan_fallback (observed predicted : List (Option ℚ))
    (h : ¬ (obs_clean observed predicted).length < 10) :
    (calculate_station_stats observed predicted).map StationStats.pbias =
      some (if (obs_clean observed predicted).sum ≠ 0 then
          some (100 * (List.zipWith (fun p o => p - o)
              (pred_clean observed predicted) (obs_clean observed predicted)).sum /
            (obs_clean observed predicted).sum)
        else none) := by
  simp only [calculate_station_stats]
  rw [if_neg h]
  rfl

/-- Witness for C4 at the concrete all-zero observations. -/
theorem c4_pbias_nan_fallback_witness :
    (calculate_station_stats exC4obs exC4pred).map StationStats.pbias =
      some (if (obs_clean exC4obs exC4pred).sum ≠ 0 then
          some (100 * (List.zipWith (fun p o => p - o)
              (pred_clean exC4obs exC4pred) (obs_clean exC4obs exC4pred)).sum /
            (obs_clean exC4obs exC4pred).sum)
        else none) :=
  c4_pbias_nan_fallback exC4obs exC4pred (by decide)

/-- C10: when no station yields valid statistics,
calculate_stats_for_all_stations returns the empty table that still
carries the fixed column set (station, count, obs_mean, pred_mean, bias,
mae, rmse, r2, rel_bias, rel_rmse, nse, corr, pbias), whereas
calculate_percentile_stats_by_station raises (set_index on an empty
frame) exactly in that situation. -/
theorem c10_empty_table_vs_keyerror (cols : List String)
    (obs pred : String → List (Option ℚ)) (percentile : ℚ) (higher : Bool) :
    (calculate_stats_for_all_stations cols obs pred =
        .emptyWithColumns statsColumns ↔
      ∀ s ∈ cols, calculate_station_stats (obs s) (pred s) = none)
    ∧ statsColumns = ["station", "count", "obs_mean", "pred_mean", "bias",
        "mae", "rmse", "r2", "rel_bias", "rel_rmse", "nse", "corr", "pbias"]
    ∧ ((∃ e, calculate_percentile_stats_by_station cols obs pred percentile
          higher = .error e) ↔
      ∀ s ∈ cols, percentileStationStats obs pred percentile higher s = none) := by
  refine ⟨?_, rfl, ?_⟩
  · constructor
    · intro h s hs
      by_cases hrows : stationRows cols obs pred = []
      · have := List.filterMap_eq_nil_iff.mp hrows s hs
        simpa using this
      · simp [calculate_stats_for_all_stations, hrows] at h
    · intro hall
      have hrows : stationRows cols obs pred = [] :=
        List.filterMap_eq_nil_iff.mpr fun s hs => by simp [hall s hs]
      simp [calculate_stats_for_all_stations, hrows]
  · by_cases hrows : (cols.filterMap fun s =>
        (percentileStationStats obs pred percentile higher s).map
          fun st => (s, st)) = []
    · constructor
      · intro _ s hs
        have := List.filterMap_eq_nil_iff.mp hrows s hs
        simpa using this
      · intro _
        exact ⟨"KeyError: station",
          by simp [calculate_percentile_stats_by_station, hrows]⟩
    · constructor
      · rintro ⟨e, he⟩
        simp [calculate_percentile_stats_by_station, hrows] at he
      · intro hall
        exact absurd (List.filterMap_eq_nil_iff.mpr fun s hs =>
          by simp [hall s hs]) hrows

/-- Witness for C10 at a concrete input with a single one-sample station:
the all-stations table degrades to the structured empty table while the
percentile variant errors. -/
theorem c10_empty_table_vs_keyerror_witness :
    calculate_stats_for_all_stations ["A"] (fun _ => [some (1 : ℚ)])
        (fun _ => [some 1]) = .emptyWithColumns statsColumns
    ∧ ∃ e, calculate_percentile_stats_by_station ["A"]
        (fun _ => [some (1 : ℚ)]) (fun _ => [some 1]) 90 true = .error e :=
  ⟨(c10_empty_table_vs_keyerror ["A"] (fun _ => [some 1]) (fun _ => [some 1])
      90 true).1.mpr (by decide),
   (c10_empty_table_vs_keyerror ["A"] (fun _ => [some 1]) (fun _ => [some 1])
      90 true).2.2.mpr (by decide)⟩

/-- C5: preprocess_data intersects station ids first and fails with the
no-common-stations error exactly when that intersection is empty; only
then does it intersect the date indexes, failing with the no-overlap
error when the date intersection is empty; on success both frames carry
the common stations and common dates. -/
theorem c5_station_intersection_before_dates (ground gridded : DF) :
    (preprocess_data ground gridded = .error .noCommonStations ↔
      commonStations ground gridded = [])
    ∧ (commonStations ground gridded ≠ [] → commonDates ground gridded = [] →
        preprocess_data ground gridded = .error .noOverlap)
    ∧ (∀ s, s ∈ commonStations ground gridded ↔
        s ∈ ground.stations ∧ s ∈ gridded.stations)
    ∧ (∀ ga pa, preprocess_data ground gridded = .ok (ga, pa) →
        ga.stations = commonStations ground gridded
        ∧ pa.stations = commonStations ground gridded
        ∧ ga.dates = commonDates ground gridded
        ∧ pa.dates = commonDates ground gridded) := by
  refine ⟨?_, ?_, fun s => ?_, fun ga pa h => ?_⟩
  · by_cases h1 : commonStations ground gridded = []
    · simp [preprocess_data, h1]
    · by_cases h2 : commonDates ground gridded = [] <;>
        simp [preprocess_data, h1, h2]
  · intro h1 h2
    simp [preprocess_data, h1, h2]
  · simp [commonStations, List.mem_filter]
  · by_cases h1 : commonStations ground gridded = []
    · simp [preprocess_data, h1] at h
    · by_cases h2 : commonDates ground gridded = []
      · simp [preprocess_data, h1, h2] at h
      · simp only [preprocess_data, if_neg h1, if_neg h2, Except.ok.injEq,
          Prod.mk.injEq] at h
        obtain ⟨rfl, rfl⟩ := h
        exact ⟨rfl, rfl, rfl, rfl⟩

/-- Witness for C5 at the spec's own instance: stations 1,2,3 against
2,3,4 with disjoint dates — the common stations 2,3 are determined and
the failure is the no-overlap error, not the no-common-stations one. -/
theorem c5_station_intersection_before_dates_witness :
    preprocess_data exC5ground exC5gridded = .error .noOverlap
    ∧ commonStations exC5ground exC5gridded = ["2", "3"] :=
  ⟨(c5_station_intersection_before_dates exC5ground exC5gridded).2.1
      (by decide) (by decide), by decide⟩

/-- C9 counterexample: on a FLDAS input with a common station and
overlapping dates — exactly where the claim promises monthly aggregation
of the ground data, skipped daily statistics and an attached resolution
annotation — analyze_dataset writes no file, attaches no annotation and
returns no summary: the branch dies on the undefined attribute
aggregate_to_monthly and the per-dataset handler swallows the error. -/
theorem c9_fldas_counterexample :
    (analyze_dataset (some exConfig) "FLDAS" exC7g exC7p).temporal_note = none
    ∧ (analyze_dataset (some exConfig) "FLDAS" exC7g exC7p).files = []
    ∧ (analyze_dataset (some exConfig) "FLDAS" exC7g exC7p).caught =
        some "AttributeError: GriddedDataAnalyzer object has no attribute aggregate_to_monthly" := by
  refine ⟨by decide, by decide, by decide⟩

/-- C9 (amended): for the FLDAS dataset the orchestrator aligns first and
only then reaches the monthly-aggregation step, which references an
attribute the analyzer class never defines; the dataset's analysis
therefore always aborts with a caught error — no statistics table is
written (daily ones included), no resolution annotation is attached, and
the returned summary is empty.  When alignment itself fails, the caught
error is the alignment error, showing station/date intersection precedes
the aggregation attempt. -/
theorem c9_fldas_path (config : Option AnalysisConfig) (ground gridded : DF) :
    ((analyze_dataset config "FLDAS" ground gridded).files = []
      ∧ (analyze_dataset config "FLDAS" ground gridded).temporal_note = none
      ∧ (analyze_dataset config "FLDAS" ground gridded).summary = none)
    ∧ (commonStations ground gridded = [] →
        (analyze_dataset config "FLDAS" ground gridded).caught =
          some "ValueError: No common stations found")
    ∧ (commonStations ground gridded ≠ [] → commonDates ground gridded ≠ [] →
        (analyze_dataset config "FLDAS" ground gridded).caught =
          some "AttributeError: GriddedDataAnalyzer object has no attribute aggregate_to_monthly") := by
  by_cases h1 : commonStations ground gridded = []
  · simp [analyze_dataset, preprocess_data, h1, caughtOutputs]
  · by_cases h2 : commonDates ground gridded = [] <;>
      simp [analyze_dataset, preprocess_data, h1, h2, caughtOutputs]

/-- Witness for C9: at the concrete overlapping FLDAS input, the caught
error is the AttributeError of the aggregation attempt. -/
theorem c9_fldas_path_witness :
    (analyze_dataset none "FLDAS" exC7g exC7p).caught =
      some "AttributeError: GriddedDataAnalyzer object has no attribute aggregate_to_monthly" :=
  (c9_fldas_path none exC7g exC7p).2.2 (by decide) (by decide)

/-! ## Grouping lemmas for the Temporal Aggregator -/

theorem mem_firstDedupAux [DecidableEq α] (l seen : List α) (a : α) :
    a ∈ firstDedupAux l seen ↔ a ∈ l ∧ a ∉ seen := by
  induction l generalizing seen with
  | nil => simp [firstDedupAux]
  | cons k ks ih =>
    rw [firstDedupAux]
    by_cases hk : k ∈ seen
    · rw [if_pos hk, ih]
      constructor
      · rintro ⟨h1, h2⟩
        exact ⟨List.mem_cons_of_mem _ h1, h2⟩
      · rintro ⟨h1, h2⟩
        refine ⟨?_, h2⟩
        rcases List.mem_cons.mp h1 with rfl | h
        · exact absurd hk h2
        · exact h
    · rw [if_neg hk]
      constructor
      · intro h
        rcases List.mem_cons.mp h with rfl | h
        · exact ⟨List.mem_cons_self .., hk⟩
        · obtain ⟨h1, h2⟩ := (ih _).mp h
          exact ⟨List.mem_cons_of_mem _ h1,
            fun hs => h2 (List.mem_cons_of_mem _ hs)⟩
      · rintro ⟨h1, h2⟩
        rcases List.mem_cons.mp h1 with rfl | h
        · exact List.mem_cons_self ..
        · by_cases hak : a = k
          · subst hak
            exact List.mem_cons_self ..
          · refine List.mem_cons_of_mem _ ((ih _).mpr ⟨h, fun hs => ?_⟩)
            rcases List.mem_cons.mp hs with h' | h'
            · exact hak h'
            · exact h2 h'

theorem mem_firstDedup [DecidableEq α] (l : List α) (a : α) :
    a ∈ firstDedup l ↔ a ∈ l := by
  simp [firstDedup, mem_firstDedupAux]

theorem firstDedupAux_eq_nil [DecidableEq α] (l seen : List α)
    (h : ∀ a ∈ l, a ∈ seen) : firstDedupAux l seen = [] := by
  induction l with
  | nil => rfl
  | cons k ks ih =>
    rw [firstDedupAux, if_pos (h k (List.mem_cons_self ..))]
    exact ih fun a ha => h a (List.mem_cons_of_mem _ ha)

theorem firstDedup_const [DecidableEq α] (l : List α) (y : α) (hne : l ≠ [])
    (hall : ∀ a ∈ l, a = y) : firstDedup l = [y] := by
  cases l with
  | nil => exact absurd rfl hne
  | cons k ks =>
    have hk : k = y := hall k (List.mem_cons_self ..)
    subst hk
    rw [firstDedup, firstDedupAux, if_neg (List.not_mem_nil k)]
    rw [firstDedupAux_eq_nil ks [k] fun a ha =>
      by rw [hall a (List.mem_cons_of_mem _ ha)]; exact List.mem_cons_self ..]

theorem groupVals_eq_of_const [DecidableEq κ] (df : DSeries) (key : Date → κ)
    (k : κ) (hall : ∀ r ∈ df, key r.1 = k) :
    groupVals df key k = df.map Prod.snd := by
  unfold groupVals
  rw [List.filter_eq_self.mpr fun r hr => by simp [hall r hr]]

/-- C2 counterexample: a year whose January holds one valid value 10 over
three index rows (so its monthly value is masked by the 80% rule) and
whose other months each hold a single valid 0.  The source computes the
yearly value directly from the daily values — 10 — while the two-stage
daily→monthly→yearly aggregation described by the claim would drop the
masked January and yield 0.  The monthly series is also computed to show
January is indeed masked there, i.e. the monthly masking does NOT
propagate into the source's yearly sum. -/
theorem c2_two_stage_counterexample :
    aggregate_to_yearly exC2df = [(2001, some 10)]
    ∧ aggregate_to_yearly_twostage exC2df = [(2001, some 0)]
    ∧ aggregate_to_monthly exC2df =
        ((2001, 1), none) ::
          ((List.range 11).map fun m => ((2001, m + 2), some 0)) :=
  ⟨by decide, by decide, by decide⟩

/-- C2 (amended): for a station matrix confined to one calendar year, the
yearly aggregation computes the station-year value directly from the
daily values (single-stage; the monthly 80% masking does not propagate),
and the year is masked exactly when fewer than 9 of its calendar months
hold at least one non-missing daily value: with 9 such months the year is
kept, with 8 it is masked. -/
theorem c2_yearly_direct_sum_and_month_threshold (df : DSeries) (y : Nat)
    (hy : ∀ r ∈ df, r.1.y = y) (hne : df ≠ []) :
    aggregate_to_yearly df =
      [(y, if monthsWithData df y < 9 then none
           else some (sumValid (df.map Prod.snd)))]
    ∧ (9 ≤ monthsWithData df y →
        aggregate_to_yearly df = [(y, some (sumValid (df.map Prod.snd)))])
    ∧ (monthsWithData df y ≤ 8 → aggregate_to_yearly df = [(y, none)]) := by
  have hkeys : firstDedup (df.map fun r => yearKey r.1) = [y] := by
    refine firstDedup_const _ y (by simpa using hne) ?_
    intro a ha
    obtain ⟨r, hr, rfl⟩ := List.mem_map.mp ha
    exact hy r hr
  have hgroup : groupVals df yearKey y = df.map Prod.snd :=
    groupVals_eq_of_const df yearKey y hy
  have hmain : aggregate_to_yearly df =
      [(y, if monthsWithData df y < 9 then none
           else some (sumValid (df.map Prod.snd)))] := by
    unfold aggregate_to_yearly
    rw [hkeys]
    simp [hgroup, monthsWithData]
  refine ⟨hmain, fun h9 => ?_, fun h8 => ?_⟩
  · rw [hmain, if_neg (Nat.not_lt.mpr h9)]
  · rw [hmain, if_pos (by omega)]

/-- Witness for C2 at the concrete one-year input (all 12 months hold
data, so the year is kept and equals the direct daily sum). -/
theorem c2_yearly_direct_sum_witness :
    aggregate_to_yearly exC2df = [(2001, some (sumValid (exC2df.map Prod.snd)))] :=
  (c2_yearly_direct_sum_and_month_threshold exC2df 2001 (by decide)
    (by decide)).2.1 (by decide)

/-- C3 counterexample: January 2001 with 24 of its 31 days valid (each
value 1).  24/31 is strictly below 80%, so the claim (and the spec's test
"a month with <80% coverage yields NaN regardless of partial sum")
requires the monthly value to be missing; the source keeps it, because
its requirement is the integer truncation int(31 * 0.8) = 24. -/
theorem c3_eighty_percent_counterexample :
    aggregate_to_monthly (monthBlock 2001 1 exC3vals) = [((2001, 1), some 24)]
    ∧ 24 * 5 < 31 * 4 :=
  ⟨by decide, by decide⟩

/-- C3 (amended): for any daily matrix whose rows in calendar month
(y, m) form that month's full calendar grid of 28-31 days (the actual
month length, not a fixed constant), the monthly aggregate at (y, m) sums
the month's daily values and is masked exactly when the number of
non-missing days is below int(0.8 * daysInMonth) — the integer truncation
of the 80% requirement; a month with all of its days present yields
exactly the sum of its daily values. -/
theorem c3_monthly_sum_and_coverage (df : DSeries) (y m : Nat)
    (vs : List (Option ℚ)) (hm1 : 1 ≤ m) (hm2 : m ≤ 12)
    (hgrid : df.filter (fun r => decide (monthKey r.1 = (y, m))) =
      monthBlock y m vs)
    (hlen : vs.length = daysInMonth y m) :
    (28 ≤ daysInMonth y m ∧ daysInMonth y m ≤ 31)
    ∧ ((y, m), if countValid vs < min_required (daysInMonth y m) then none
        else some (sumValid vs)) ∈ aggregate_to_monthly df
    ∧ (∀ v, ((y, m), v) ∈ aggregate_to_monthly df →
        v = if countValid vs < min_required (daysInMonth y m) then none
            else some (sumValid vs))
    ∧ (countValid vs = daysInMonth y m →
        ((y, m), some (sumValid vs)) ∈ aggregate_to_monthly df) := by
  have hdays : 28 ≤ daysInMonth y m ∧ daysInMonth y m ≤ 31 := by
    interval_cases m <;> cases hL : isLeap y <;> simp [daysInMonth, hL]
  have hdlen : (monthDates y m).length = daysInMonth y m := by
    simp [monthDates]
  have hblock : (monthBlock y m vs).map Prod.snd = vs := by
    unfold monthBlock
    exact List.map_snd_zip _ _ (by rw [hdlen, hlen])
  have hgroup : groupVals df monthKey (y, m) = vs := by
    unfold groupVals
    rw [hgrid, hblock]
  have hblock_ne : monthBlock y m vs ≠ [] := by
    have : (monthBlock y m vs).length = daysInMonth y m := by
      unfold monthBlock
      rw [List.length_zip, hdlen, hlen, Nat.min_self]
    intro hcon
    rw [hcon] at this
    simp at this
    omega
  have hkey : (y, m) ∈ df.map fun r => monthKey r.1 := by
    obtain ⟨r, hr⟩ := List.exists_mem_of_ne_nil _ hblock_ne
    have hrf : r ∈ df.filter fun r => decide (monthKey r.1 = (y, m)) := by
      rw [hgrid]; exact hr
    have hrd := List.of_mem_filter hrf
    exact List.mem_map.mpr ⟨r, List.mem_of_mem_filter hrf,
      by simpa using hrd⟩
  have hrule : ∀ k, k ∈ firstDedup (df.map fun r => monthKey r.1) →
      k = (y, m) →
      (k, if countValid (groupVals df monthKey k) <
            min_required (groupVals df monthKey k).length then none
          else some (sumValid (groupVals df monthKey k))) =
      ((y, m), if countValid vs < min_required (daysInMonth y m) then none
          else some (sumValid vs)) := by
    rintro k _ rfl
    rw [hgroup, hlen]
  have hmemIf : ((y, m), if countValid vs < min_required (daysInMonth y m)
      then none else some (sumValid vs)) ∈ aggregate_to_monthly df := by
    unfold aggregate_to_monthly
    refine List.mem_map.mpr ⟨(y, m), (mem_firstDedup _ _).mpr hkey, ?_⟩
    simpa using hrule (y, m) ((mem_firstDedup _ _).mpr hkey) rfl
  refine ⟨hdays, hmemIf, ?_, ?_⟩
  · intro v hv
    unfold aggregate_to_monthly at hv
    obtain ⟨k, hkmem, hkeq⟩ := List.mem_map.mp hv
    have hk : k = (y, m) := by
      have := congrArg Prod.fst hkeq
      simpa using this
    have := hrule k hkmem hk
    subst hk
    simp only at hkeq
    rw [hkeq] at this
    exact (Prod.mk.injEq .. |>.mp this).2
  · intro hfull
    have hfc : ¬ countValid vs < min_required (daysInMonth y m) := by
      rw [hfull]
      unfold min_required
      omega
    rw [if_neg hfc] at hmemIf
    exact hmemIf

/-- Witness for C3 at a full January 2001 of valid ones: the monthly
value is the exact sum of the daily values. -/
theorem c3_monthly_sum_and_coverage_witness :
    ((2001, 1), some (sumValid (List.replicate 31 (some (1 : ℚ))))) ∈
      aggregate_to_monthly (monthBlock 2001 1 (List.replicate 31 (some 1))) :=
  (c3_monthly_sum_and_coverage (monthBlock 2001 1 (List.replicate 31 (some 1)))
    2001 1 (List.replicate 31 (some 1)) (by decide) (by decide) (by decide)
    (by decide)).2.2.2 (by decide)

/-! ## Lemmas about the Outlier Filter -/

theorem lookup_setCol (t : StatsCols) (c : String) (vs : List (Option ℚ))
    (c' : String) :
    (setCol t c vs).lookup c' =
      (t.lookup c').map fun old => if c = c' then vs else old := by
  induction t with
  | nil => rfl
  | cons p rest ih =>
    obtain ⟨k, w⟩ := p
    have hsetcons : setCol ((k, w) :: rest) c vs =
        (if k = c then (k, vs) else (k, w)) :: setCol rest c vs := by
      by_cases h2 : k = c <;> simp [setCol, h2]
    rw [hsetcons]
    by_cases h2 : k = c
    · rw [if_pos h2, List.lookup_cons, List.lookup_cons]
      cases hbeq : c' == k with
      | false => simpa [hbeq] using ih
      | true =>
        have h1 : c' = k := beq_iff_eq.mp hbeq
        have hcc : c = c' := (h1.trans h2).symm
        simp [hcc]
    · rw [if_neg h2, List.lookup_cons, List.lookup_cons]
      cases hbeq : c' == k with
      | false => simpa [hbeq] using ih
      | true =>
        have h1 : c' = k := beq_iff_eq.mp hbeq
        have hcc : ¬ c = c' := fun h => h2 (h.trans h1).symm
        simp [hcc]

theorem map_fst_setCol (t : StatsCols) (c : String) (vs : List (Option ℚ)) :
    (setCol t c vs).map Prod.fst = t.map Prod.fst := by
  unfold setCol
  rw [List.map_map]
  exact List.map_congr_left fun p _ => by by_cases h : p.1 = c <;> simp [h]

theorem lookup_of_mem_nodup (t : StatsCols) (c : String)
    (vs : List (Option ℚ)) (hnd : (t.map Prod.fst).Nodup)
    (hcv : (c, vs) ∈ t) : t.lookup c = some vs := by
  induction t with
  | nil => cases hcv
  | cons p rest ih =>
    obtain ⟨k, w⟩ := p
    rcases List.mem_cons.mp hcv with heq | hmem
    · cases heq
      simp [List.lookup]
    · have hk : c ≠ k := by
        rintro rfl
        exact (List.nodup_cons.mp hnd).1
          (List.mem_map.mpr ⟨(c, vs), hmem, rfl⟩)
      rw [List.lookup_cons]
      simp only [beq_eq_false_iff_ne.mpr hk]
      exact ih (List.nodup_cons.mp hnd).2 hmem

theorem getD_eq_some_iff (l : List (Option ℚ)) (i : Nat) (v : ℚ) :
    l.getD i none = some v ↔ l[i]? = some (some v) := by
  rw [List.getD_eq_getElem?_getD]
  cases h : l[i]? <;> simp

theorem map_bind_if_getElem (vs : List (Option ℚ)) (bad : ℚ → Bool)
    (i : Nat) (v : ℚ) :
    ((vs.map fun v? => v?.bind fun x => if bad x then none else some x)[i]? =
        some (some v)) ↔
      vs[i]? = some (some v) ∧ ¬ bad v := by
  rw [List.getElem?_map]
  cases hv : vs[i]? with
  | none => simp
  | some w =>
    cases w with
    | none => simp
    | some x =>
      have hmap : (some (some x)).map
          (fun v? => v?.bind fun y => if bad y then none else some y) =
          some (if bad x then none else some x) := rfl
      rw [hmap]
      by_cases hb : bad x
      · rw [if_pos hb]
        simp only [Option.some.injEq]
        constructor
        · intro h
          exact absurd h (by simp)
        · rintro ⟨hx, hbv⟩
          obtain rfl : x = v := by simpa using hx
          exact absurd hb hbv
      · rw [if_neg hb]
        simp only [Option.some.injEq]
        constructor
        · intro h
          obtain rfl : x = v := by simpa using h
          exact ⟨rfl, by simpa using hb⟩
        · rintro ⟨hx, _⟩
          simpa using hx

theorem lookup_foldl_filterStep (lp up : ℚ) (cs : List String)
    (t : StatsCols) (c : String) (vs : List (Option ℚ)) (hnd : cs.Nodup)
    (hl : t.lookup c = some vs) :
    (cs.foldl (filterStep lp up) t).lookup c =
      if c ∈ cs then some (filterColVals lp up c vs) else some vs := by
  induction cs generalizing t vs with
  | nil => simpa using hl
  | cons c₁ cs ih =>
    have hnd' : cs.Nodup := (List.nodup_cons.mp hnd).2
    have hc₁ : c₁ ∉ cs := (List.nodup_cons.mp hnd).1
    show (cs.foldl (filterStep lp up) (filterStep lp up t c₁)).lookup c = _
    by_cases hcc : c = c₁
    · subst hcc
      have hstep : (filterStep lp up t c).lookup c =
          some (filterColVals lp up c vs) := by
        unfold filterStep
        rw [hl, lookup_setCol, hl]
        simp
      rw [ih _ _ hnd' hstep, if_neg hc₁, if_pos (List.mem_cons_self ..)]
    · have hstep : (filterStep lp up t c₁).lookup c = some vs := by
        unfold filterStep
        cases hl1 : t.lookup c₁ with
        | none => exact hl
        | some w =>
          rw [lookup_setCol, hl]
          have hmm : (some vs).map (fun old =>
              if c₁ = c then filterColVals lp up c₁ w else old) =
              some (if c₁ = c then filterColVals lp up c₁ w else vs) := rfl
          rw [hmm, if_neg fun h : c₁ = c => hcc h.symm]
      rw [ih _ _ hnd' hstep]
      by_cases hmem : c ∈ cs <;> simp [hmem, hcc, List.mem_cons]

/-- C6: the Outlier Filter replaces each column of the statistics table by
its direction-aware filtering with thresholds computed on that column as
given (np.nanpercentile ignores missing cells), and cell-wise: a value of
a higher-is-better column (r2, nse, corr) survives exactly when it is not
strictly below the lower-percentile threshold — the upper tail is never
touched; a value of a lower-is-better column (rmse, mae, bias, pbias,
rel_bias, rel_rmse) survives exactly when it is not strictly above the
upper-percentile threshold — the lower tail is never touched; any other
numeric column keeps exactly the values not strictly outside the two
bounds. -/
theorem c6_direction_aware_filtering (t : StatsCols) (lp up : ℚ)
    (c : String) (vs : List (Option ℚ)) (hnd : (t.map Prod.fst).Nodup)
    (hcv : (c, vs) ∈ t) :
    (filter_extreme_stats t lp up none).lookup c =
        some (filterColVals lp up c vs)
    ∧ (pyLower c ∈ higher_is_better → ∀ (i : Nat) (v : ℚ),
        ((filterColVals lp up c vs)[i]? = some (some v) ↔
          vs[i]? = some (some v) ∧ ¬ ltBound (nanpercentile vs lp) v))
    ∧ (pyLower c ∉ higher_is_better → pyLower c ∈ lower_is_better → ∀ (i : Nat) (v : ℚ),
        ((filterColVals lp up c vs)[i]? = some (some v) ↔
          vs[i]? = some (some v) ∧ ¬ gtBound (nanpercentile vs up) v))
    ∧ (pyLower c ∉ higher_is_better → pyLower c ∉ lower_is_better → ∀ (i : Nat) (v : ℚ),
        ((filterColVals lp up c vs)[i]? = some (some v) ↔
          vs[i]? = some (some v) ∧
            ¬ (ltBound (nanpercentile vs lp) v = true ∨
               gtBound (nanpercentile vs up) v = true))) := by
  refine ⟨?_, ?_, ?_, ?_⟩
  · have hne : t ≠ [] := List.ne_nil_of_mem hcv
    have hmemc : c ∈ t.map Prod.fst := List.mem_map.mpr ⟨(c, vs), hcv, rfl⟩
    unfold filter_extreme_stats
    rw [if_neg hne]
    rw [lookup_foldl_filterStep lp up _ t c vs hnd
      (lookup_of_mem_nodup t c vs hnd hcv), if_pos hmemc]
  · intro hhi i v
    unfold filterColVals
    rw [if_pos hhi]
    exact map_bind_if_getElem vs _ i v
  · intro hhi hlo i v
    unfold filterColVals
    rw [if_neg hhi, if_pos hlo]
    exact map_bind_if_getElem vs _ i v
  · intro hhi hlo i v
    unfold filterColVals
    rw [if_neg hhi, if_neg hlo]
    rw [map_bind_if_getElem vs _ i v]
    simp

/-- A two-column statistics table (one lower-is-better metric, one
unclassified numeric column) used by the C6 witness. -/
theorem c6_direction_aware_filtering_witness :
    (filter_extreme_stats [("rmse", [some 0, some 1, some 100]),
        ("count", [some 10, some 11, some 12])] 1 99 none).lookup "rmse" =
      some (filterColVals 1 99 "rmse" [some 0, some 1, some 100]) :=
  (c6_direction_aware_filtering [("rmse", [some 0, some 1, some 100]),
      ("count", [some 10, some 11, some 12])] 1 99 "rmse"
    [some 0, some 1, some 100] (by decide) (by decide)).1

/-! ## Lemmas for the second filter application (C8) -/

theorem filterColVals_some (lp up : ℚ) (c : String) (vs : List (Option ℚ))
    (i : Nat) (v : ℚ)
    (h : (filterColVals lp up c vs)[i]? = some (some v)) :
    vs[i]? = some (some v) := by
  unfold filterColVals at h
  split at h
  · exact ((map_bind_if_getElem vs _ i v).mp h).1
  · split at h
    · exact ((map_bind_if_getElem vs _ i v).mp h).1
    · exact ((map_bind_if_getElem vs _ i v).mp h).1

theorem cellAt_filterStep (lp up : ℚ) (t : StatsCols) (c₁ c : String)
    (i : Nat) (v : ℚ) (h : cellAt (filterStep lp up t c₁) c i = some v) :
    cellAt t c i = some v := by
  unfold filterStep at h
  cases hl1 : t.lookup c₁ with
  | none => rwa [hl1] at h
  | some vs₁ =>
    rw [hl1] at h
    unfold cellAt at h ⊢
    rw [lookup_setCol] at h
    cases hlc : t.lookup c with
    | none =>
      rw [hlc] at h
      exact absurd h (by simp)
    | some vs =>
      rw [hlc] at h
      have hmm : (some vs).map (fun old =>
          if c₁ = c then filterColVals lp up c₁ vs₁ else old) =
          some (if c₁ = c then filterColVals lp up c₁ vs₁ else vs) := rfl
      rw [hmm] at h
      by_cases hcc : c₁ = c
      · rw [if_pos hcc] at h
        have hvs : vs₁ = vs := by
          rw [hcc] at hl1
          rw [hl1] at hlc
          exact Option.some.inj hlc
        subst hvs
        rw [getD_eq_some_iff] at h ⊢
        exact filterColVals_some lp up c₁ vs₁ i v h
      · rwa [if_neg hcc] at h

theorem cellAt_foldl_filterStep (lp up : ℚ) (cs : List String)
    (t : StatsCols) (c : String) (i : Nat) (v : ℚ)
    (h : cellAt (cs.foldl (filterStep lp up) t) c i = some v) :
    cellAt t c i = some v := by
  induction cs generalizing t with
  | nil => exact h
  | cons c₁ cs ih => exact cellAt_filterStep lp up t c₁ c i v (ih _ h)

theorem cellAt_filter_extreme_stats_mono (t : StatsCols) (lp up : ℚ)
    (ctf : Option (List String)) (c : String) (i : Nat) (v : ℚ)
    (h : cellAt (filter_extreme_stats t lp up ctf) c i = some v) :
    cellAt t c i = some v := by
  unfold filter_extreme_stats at h
  by_cases hne : t = []
  · rwa [if_pos hne] at h
  · rw [if_neg hne] at h
    exact cellAt_foldl_filterStep lp up _ t c i v h

/-- C8 counterexample: re-applying filter_extreme_stats with the same
configuration (lower 1, upper 99) to its own output removes a further
value.  On the rmse column (0, 1, 100) the first pass suppresses 100
(99th percentile 98.02); the second pass recomputes the percentile on the
remaining (0, 1) — now 0.99 — and suppresses 1 as well, so the second
application does not leave the already-filtered table unchanged. -/
theorem c8_not_idempotent_counterexample :
    filter_extreme_stats (filter_extreme_stats exC8table 1 99 none) 1 99 none ≠
        filter_extreme_stats exC8table 1 99 none
    ∧ filter_extreme_stats exC8table 1 99 none =
        [("rmse", [some 0, some 1, none])]
    ∧ filter_extreme_stats (filter_extreme_stats exC8table 1 99 none) 1 99
        none = [("rmse", [some 0, none, none])] :=
  ⟨by decide, by decide, by decide⟩

/-- C8 (amended): a second application of the Outlier Filter with the same
configuration may suppress additional values (its percentile thresholds
are recomputed over the already-filtered columns), but it never restores
or alters a value: every cell that survives the second pass carries
exactly its value after the first pass. -/
theorem c8_second_pass_only_removes (t : StatsCols) (lp up : ℚ)
    (ctf : Option (List String)) (c : String) (i : Nat) (v : ℚ)
    (h : cellAt (filter_extreme_stats (filter_extreme_stats t lp up ctf)
      lp up ctf) c i = some v) :
    cellAt (filter_extreme_stats t lp up ctf) c i = some v :=
  cellAt_filter_extreme_stats_mono (filter_extreme_stats t lp up ctf)
    lp up ctf c i v h

/-- Witness for C8: the cell that survives both passes on the concrete
rmse table carries its first-pass value. -/
theorem c8_second_pass_only_removes_witness :
    cellAt (filter_extreme_stats exC8table 1 99 none) "rmse" 0 = some 0 :=
  c8_second_pass_only_removes exC8table 1 99 none "rmse" 0 0 (by decide)

/-! ## Lemmas for the seasonal statistics (C7) -/

theorem lookup_map_keyed {α : Type} (ks : List String) (f : String → α)
    (σ : String) :
    ((ks.map fun k => (k, f k)).lookup σ) =
      if σ ∈ ks then some (f σ) else none := by
  induction ks with
  | nil => rfl
  | cons k ks ih =>
    rw [List.map_cons, List.lookup_cons]
    cases hbeq : σ == k with
    | true =>
      have h1 : σ = k := beq_iff_eq.mp hbeq
      subst h1
      rw [if_pos (List.mem_cons_self ..)]
    | false =>
      have h1 : σ ≠ k := by simpa using hbeq
      rw [ih]
      by_cases hmem : σ ∈ ks <;> simp [hmem, h1, List.mem_cons]

theorem lookup_split_by_season (df : DF) (σ : String) :
    (split_by_season df).lookup σ =
      if σ ∈ seasonNames ∧ seasonDates df σ ≠ [] then
        some { df with dates := seasonDates df σ } else none := by
  unfold split_by_season
  rw [List.filter_map, lookup_map_keyed]
  by_cases h1 : σ ∈ seasonNames
  · by_cases h2 : seasonDates df σ ≠ [] <;>
      simp [h1, h2, List.mem_filter, Function.comp]
  · simp [h1, List.mem_filter]

theorem mem_calculate_seasonal_stats (ground gridded : DF) (σ : String)
    (T : StatsTableResult) :
    (σ, T) ∈ calculate_seasonal_stats ground gridded ↔
      σ ∈ seasonNames
      ∧ seasonDates (alignInner ground gridded).1 σ ≠ []
      ∧ seasonDates (alignInner ground gridded).2 σ ≠ []
      ∧ T = statsOfDF
          { (alignInner ground gridded).1 with
              dates := seasonDates (alignInner ground gridded).1 σ }
          { (alignInner ground gridded).2 with
              dates := seasonDates (alignInner ground gridded).2 σ } := by
  unfold calculate_seasonal_stats
  rw [List.mem_filterMap]
  constructor
  · rintro ⟨σ', hσ', hf⟩
    rw [lookup_split_by_season, lookup_split_by_season] at hf
    by_cases h1 : seasonDates (alignInner ground gridded).1 σ' ≠ []
    · by_cases h2 : seasonDates (alignInner ground gridded).2 σ' ≠ []
      · rw [if_pos ⟨hσ', h1⟩, if_pos ⟨hσ', h2⟩] at hf
        obtain ⟨rfl, rfl⟩ := Prod.mk.injEq .. |>.mp (Option.some.inj hf)
        exact ⟨hσ', h1, h2, rfl⟩
      · rw [if_pos ⟨hσ', h1⟩, if_neg fun hc => h2 hc.2] at hf
        exact absurd hf (by simp)
    · rw [if_neg fun hc => h1 hc.2] at hf
      exact absurd hf (by simp)
  · rintro ⟨hσ, h1, h2, rfl⟩
    refine ⟨σ, hσ, ?_⟩
    rw [lookup_split_by_season, lookup_split_by_season,
      if_pos ⟨hσ, h1⟩, if_pos ⟨hσ, h2⟩]

/-- C7 counterexample: a single station with 20 valid winter days (all of
January 2001) obtains a Winter statistics row with sample count 20, which
is below 90 — the claim requires a station-season combination with fewer
than 90 daily observations to be excluded from that season's table. -/
theorem c7_ninety_day_minimum_counterexample :
    ((calculate_seasonal_stats exC7g exC7p).lookup "Winter").map
        resultStations = some ["A"]
    ∧ seasonStationCount (calculate_seasonal_stats exC7g exC7p) "Winter" "A" =
        some 20
    ∧ 20 < 90 :=
  ⟨by decide, by decide, by decide⟩

/-- C7 (amended): every date is assigned to Winter (Dec, Jan, Feb),
Spring (Mar, Apr, May), Summer (Jun, Jul, Aug) or Fall (Sep, Oct, Nov) by
calendar month with daily granularity retained, and a station appears in
a season's statistics table exactly when it has at least 10 valid daily
pairs in that season (the Metric Engine's 10-pair minimum — not 90); a
station-season combination below the threshold is excluded from the
table, not reported as a NaN or zero row. -/
theorem c7_season_split_and_minimum (ground gridded : DF) (σ : String)
    (T : StatsTableResult) (s : String)
    (hmem : (σ, T) ∈ calculate_seasonal_stats ground gridded) :
    (∀ m : Nat, 1 ≤ m → m ≤ 12 →
      ((get_season m = "Winter" ↔ m = 12 ∨ m = 1 ∨ m = 2)
       ∧ (get_season m = "Spring" ↔ m = 3 ∨ m = 4 ∨ m = 5)
       ∧ (get_season m = "Summer" ↔ m = 6 ∨ m = 7 ∨ m = 8)
       ∧ (get_season m = "Fall" ↔ m = 9 ∨ m = 10 ∨ m = 11)))
    ∧ (s ∈ resultStations T ↔
        s ∈ commonStations ground gridded ∧
        10 ≤ validPairCount
          ((seasonDates (alignInner ground gridded).1 σ).map
            fun d => ground.val d s)
          ((seasonDates (alignInner ground gridded).2 σ).map
            fun d => gridded.val d s)) := by
  constructor
  · intro m h1 h2
    interval_cases m <;> exact ⟨by decide, by decide, by decide, by decide⟩
  · obtain ⟨hσ, h1, h2, rfl⟩ :=
      (mem_calculate_seasonal_stats ground gridded σ T).mp hmem
    unfold statsOfDF
    rw [resultStations_all, mem_stationRows_iff]
    have hne := calculate_station_stats_eq_none_iff
      (dfCol { (alignInner ground gridded).1 with
          dates := seasonDates (alignInner ground gridded).1 σ } s)
      (dfCol { (alignInner ground gridded).2 with
          dates := seasonDates (alignInner ground gridded).2 σ } s)
    constructor
    · rintro ⟨hs, hnn⟩
      refine ⟨hs, Nat.le_of_not_lt fun hlt => hnn (hne.mpr hlt)⟩
    · rintro ⟨hs, hle⟩
      exact ⟨hs, fun hnone => Nat.not_lt.mpr hle (hne.mp hnone)⟩

/-- Witness for C7: on the concrete winter example the station with 20
valid pairs (at least 10) is listed in the Winter table. -/
theorem c7_season_split_and_minimum_witness :
    "A" ∈ resultStations exC7winterT :=
  ((c7_season_split_and_minimum exC7g exC7p "Winter" exC7winterT "A"
      (by decide)).2).mpr ⟨by decide, by decide⟩

end GGV
